import Mathlib

/-!
Verification of the time-series dashboard script (`the_features.py`).

The script is a linear Streamlit page: it parses an uploaded CSV, renames the
first column to `YEAR`, coerces it to numbers and drops rows whose year fails
coercion, builds a year index, lets the user select a column, coerces that
column to numbers dropping missing entries, renders a line chart, and then runs
three analyzers (ADF stationarity test, ACF/PACF plots, additive seasonal
decomposition with period 10), each wrapped in its own try/except that turns a
failure into an error panel.

We embed the pipeline shallowly: table cells are an inductive type, numeric
values are `ℚ`, the page is a list of panels, and the library calls that the
script merely sequences (`pd.to_numeric`, `adfuller`, `plot_acf`/`plot_pacf`,
`seasonal_decompose`) are modelled as explicit Lean functions or abstract
function parameters returning `Except`.
-/

namespace ADF

/-- A cell of the uploaded table after CSV parsing: either missing (`na`,
pandas NaN), a numeric value (anything `pd.to_numeric` can coerce, including
numeric-looking strings, which we model by their numeric value), or text that
cannot be coerced to a number. -/
inductive Cell where
  | na : Cell
  | num (q : ℚ) : Cell
  | str (s : String) : Cell
deriving DecidableEq

/-- Models the library call `pd.to_numeric(cell, errors="coerce")`: a numeric
cell keeps its value, a missing or non-coercible cell becomes NA (`none`). -/
def toNum : Cell → Option ℚ
  | .num q => some q
  | .na => none
  | .str _ => none

/-- The raw table produced by `pd.read_csv` (line 15): named columns and rows
of cells. -/
structure RawTable where
  cols : List String
  rows : List (List Cell)
deriving DecidableEq

/-- The first cell of a row: the value of the column renamed to `YEAR`
(line 21). A row with no cells counts as missing. -/
def getFirst (r : List Cell) : Cell := r.headD Cell.na

/-- The year-indexed table: years as index values paired with the remaining
cells of each row, plus the remaining (non-index) column names. -/
structure YearTable where
  cols : List String
  rows : List (ℚ × List Cell)
deriving DecidableEq

/-- The Year-Indexed Table the cleaning of lines 21-27 produces *when it
completes without raising*: rows whose coerced `YEAR` is NA are dropped whole
(`dropna(subset=["YEAR"])`), the surviving coerced years become the index in
row order (`set_index` on a `PeriodIndex` — no sorting, no deduplication),
and the `YEAR` column is dropped. The faithful, fallible embedding of
lines 21-27 — including the raising paths of line 22 — is `cleanTable`
below, which returns exactly this value on its success path; the page model
is stated over that success path, the scope of the analyzer claims. -/
def yearTable (t : RawTable) : YearTable :=
  { cols := t.cols.drop 1
    rows := t.rows.filterMap fun r =>
      (toNum (getFirst r)).map fun y => (y, r.drop 1) }

/-- Whether a coerced first-column value survives the safe cast of line 22's
`.astype("Int64")`: it must be an integer within the int64 range (pandas
raises `TypeError: cannot safely cast non-equivalent float64 to int64` on a
non-integral value, and the cast likewise raises beyond the int64 range).
Float64 rounding of extreme integers is outside the exact rational model. -/
def int64Castable (q : ℚ) : Bool :=
  q.den == 1 && decide (-9223372036854775808 ≤ q.num)
    && decide (q.num ≤ 9223372036854775807)

/-- Whether a row's first-column value makes line 22's safe cast raise: it
coerces to a number (NaN passes through the cast as NA) but is not
castable to Int64. -/
def badYearCast (r : List Cell) : Bool :=
  match toNum (getFirst r) with
  | some q => ! int64Castable q
  | none => false

/-- Lines 21-27 of the script, with their raising paths. Line 21 renames the
first column to `YEAR`; if another column is already named `YEAR`, the
rename leaves duplicates and `df["YEAR"]` on line 22 yields a DataFrame, on
which `pd.to_numeric` raises (uncaught). Line 22 coerces with
`errors="coerce"` and then safe-casts to nullable Int64, raising (uncaught)
on any coercible non-castable value. Only then do dropna, `set_index` and
the column drop run, producing `yearTable t`. -/
def cleanTable (t : RawTable) : Except String YearTable :=
  if "YEAR" ∈ t.cols.drop 1 then
    .error "arg must be a list, tuple, 1-d array, or Series"
  else if t.rows.any badYearCast then
    .error "cannot safely cast non-equivalent float64 to int64"
  else
    .ok (yearTable t)

deriving instance DecidableEq for Except

/-- Ingestion reaches a Year-Indexed Table (the script does not crash in
lines 21-27). -/
def ingestionSucceeds (t : RawTable) : Prop :=
  ∃ yt, cleanTable t = Except.ok yt

/-- The index of the year-indexed table: the coerced year of each surviving
row, in row order. -/
def yearIndex (t : RawTable) : List ℚ :=
  (yearTable t).rows.map Prod.fst

/-- The invariant claimed of the year index: unique values, monotonically
non-decreasing. -/
def yearIndexInvariant (l : List ℚ) : Prop :=
  l.Nodup ∧ l.Pairwise (· ≤ ·)

instance (l : List ℚ) : Decidable (yearIndexInvariant l) := by
  unfold yearIndexInvariant; infer_instance

/-- The cells of the selected column, paired with their row's year
(`df[col]` on line 33). A missing column yields no cells; the select box only
offers existing columns. -/
def columnCells (t : YearTable) (col : String) : List (ℚ × Cell) :=
  match t.cols.findIdx? (· == col) with
  | none => []
  | some j => t.rows.map fun yr => (yr.1, yr.2.getD j Cell.na)

/-- Line 33 of the script:
`series = pd.to_numeric(df[col], errors="coerce").dropna()` — coerce the
selected column and drop entries that fail coercion, keeping the year index. -/
def selectedSeries (t : YearTable) (col : String) : List (ℚ × ℚ) :=
  (columnCells t col).filterMap fun yc => (toNum yc.2).map fun v => (yc.1, v)

/-- The plain values of the selected series (what gets handed to `adfuller`,
`plot_acf`/`plot_pacf` and `seasonal_decompose`). -/
def seriesVals (tbl : RawTable) (col : String) : List ℚ :=
  (selectedSeries (yearTable tbl) col).map Prod.snd

/-! Model of `statsmodels.tsa.seasonal.seasonal_decompose`.

The script calls `seasonal_decompose(series, model="additive", period=10)`
(line 76). The library, for an additive model with a two-sided centered
moving-average filter and an even period `p`, computes:
  * `trend i` — the centered moving average with half weights at the two ends
    (filter `[1/2, 1, ..., 1, 1/2] / p` of length `p + 1`), defined for
    `p/2 ≤ i < n - p/2`;
  * `detrended i = x i - trend i`;
  * per-phase averages of the detrended values (ignoring NA edges), re-centered
    to mean zero over one period, tiled as `seasonal`;
  * `resid i = x i - trend i - seasonal i` where `trend` is defined.
It raises a `ValueError` when the series has fewer than `2 * p` observations.
We model it over `ℚ` for the even period the script uses. -/

/-- Centered moving-average trend at index `i` (even period `p`): defined when
the window `[i - p/2, i + p/2]` lies inside the series. -/
def trendAt (p : Nat) (x : List ℚ) (i : Nat) : Option ℚ :=
  let h := p / 2
  if 0 < p ∧ h ≤ i ∧ i + h < x.length then
    some ((x.getD (i - h) 0 / 2
      + ((List.range (p - 1)).map fun k => x.getD (i - h + 1 + k) 0).sum
      + x.getD (i + h) 0 / 2) / p)
  else none

/-- Detrended value at index `i`, defined where the trend is. -/
def detrendedAt (p : Nat) (x : List ℚ) (i : Nat) : Option ℚ :=
  (trendAt p x i).map fun t => x.getD i 0 - t

/-- Mean of the detrended values at indices congruent to `j` modulo the
period, ignoring the NA edges (`pd_nanmean(detrended[j::period])`). When the
series is long enough for decomposition to run, every phase class is
nonempty. -/
def phaseAvg (p : Nat) (x : List ℚ) (j : Nat) : ℚ :=
  let idxs := (List.range x.length).filter fun i => i % p = j ∧ (trendAt p x i).isSome
  (idxs.map fun i => x.getD i 0 - ((trendAt p x i).getD 0)).sum / idxs.length

/-- Seasonal component at index `i`: the phase average of its residue class,
re-centered so the `p` phase averages have mean zero, tiled over the series. -/
def seasonalAt (p : Nat) (x : List ℚ) (i : Nat) : ℚ :=
  phaseAvg p x (i % p) - ((List.range p).map fun j => phaseAvg p x j).sum / p

/-- Residual at index `i`: observed minus trend minus seasonal, defined where
the trend is. -/
def residAt (p : Nat) (x : List ℚ) (i : Nat) : Option ℚ :=
  (trendAt p x i).map fun t => x.getD i 0 - t - seasonalAt p x i

/-- The four aligned component sequences returned by the decomposition, each
of the same length as the input; `trend` and `resid` are NA at the edges. -/
structure DecompResult where
  observed : List ℚ
  trend : List (Option ℚ)
  seasonal : List ℚ
  resid : List (Option ℚ)
deriving DecidableEq

/-- The message of the `ValueError` the library raises on a series shorter
than two full periods. -/
def cyclesErr (p n : Nat) : String :=
  "x must have 2 complete cycles requires " ++ toString (2 * p)
    ++ " observations. x only has " ++ toString n ++ " observation(s)"

/-- Model of the call `seasonal_decompose(x, model="additive", period=p)`:
rejects a series
with fewer than two complete cycles (the `ValueError` the script catches),
otherwise returns the four aligned components. -/
def seasonalDecompose (p : Nat) (x : List ℚ) : Except String DecompResult :=
  if x.length < 2 * p then
    .error (cyclesErr p x.length)
  else
    .ok { observed := x
          trend := (List.range x.length).map (trendAt p x)
          seasonal := (List.range x.length).map (seasonalAt p x)
          resid := (List.range x.length).map (residAt p x) }

/-! The rendered page.

The script writes a sequence of Streamlit panels. We model the page as a list
of panels; `st.error` inside an `except` branch becomes an `errorMsg` panel. -/

/-- One rendered panel of the Streamlit page. -/
inductive Panel where
  | header (s : String) : Panel
  | rawPreview (cols : List String) (rows : List (List Cell)) : Panel
  | chart (title xlabel ylabel : String) (data : List (ℚ × ℚ)) : Panel
  | adfResult (stat pval : ℚ) (label : String) : Panel
  | acfCharts : Panel
  | decompCharts (d : DecompResult) : Panel
  | caption (s : String) : Panel
  | errorMsg (s : String) : Panel
  | info (s : String) : Panel
deriving DecidableEq

/-- The outcome of running the script once: either a rendered page, or an
uncaught exception escaping the script (which Streamlit, not the script,
then reports as a traceback). -/
inductive Outcome where
  | page (ps : List Panel) : Outcome
  | crashed (e : String) : Outcome
deriving DecidableEq

/-- The stationarity verdict of lines 51-54: strict comparison of the p-value
against the fixed threshold 0.05. -/
def classify (pval : ℚ) : String :=
  if pval < 0.05 then "Series is likely stationary" else "Series is not stationary"

/-- Abstract model of `adfuller(series, autolag="AIC")`: returns the test
statistic and the p-value, or fails. -/
def AdfFn : Type := List ℚ → Except String (ℚ × ℚ)

/-- Abstract model of `plot_acf` / `plot_pacf`: renders, or fails. -/
def AcfFn : Type := List ℚ → Except String Unit

/-- Lines 47-56: the ADF try/except block. -/
def adfPanel : Except String (ℚ × ℚ) → List Panel
  | .ok sp => [.adfResult sp.1 sp.2 (classify sp.2)]
  | .error e => [.errorMsg ("ADF test failed: " ++ e)]

/-- Lines 62-68: the ACF/PACF try/except block. -/
def acfPanel : Except String Unit → List Panel
  | .ok _ => [.acfCharts]
  | .error e => [.errorMsg ("ACF/PACF plotting failed: " ++ e)]

/-- Lines 74-95: the decomposition try/except block (four stacked charts and
an explanatory caption on success). -/
def decompPanel : Except String DecompResult → List Panel
  | .ok d => [.decompCharts d, .caption "Explanation of components"]
  | .error e => [.errorMsg ("Decomposition failed: " ++ e)]

/-- Lines 17-95: the page rendered once a file has parsed and a column is
selected. The analyzers run in fixed order, each consuming only the selected
series, each failure confined to its own panel slot. -/
def runSession (adf : AdfFn) (acf : AcfFn) (tbl : RawTable) (col : String) :
    List Panel :=
  [Panel.header "Raw Data",
   Panel.rawPreview tbl.cols (tbl.rows.take 5),
   Panel.header "Selected Series",
   Panel.chart (col ++ " (1901–2021)") "Year" "Value"
     (selectedSeries (yearTable tbl) col),
   Panel.header "Stationarity Test (ADF)"]
  ++ adfPanel (adf (seriesVals tbl col))
  ++ [Panel.header "Autocorrelation and Partial Autocorrelation"]
  ++ acfPanel (acf (seriesVals tbl col))
  ++ [Panel.header "Decomposition of Time Series"]
  ++ decompPanel (seasonalDecompose 10 (seriesVals tbl col))

/-- The whole script (lines 11-98): no file yet shows an informational prompt;
`pd.read_csv` (line 15) is *not* inside any try/except, so a parse failure
escapes the script as an uncaught exception, and so does a cleaning failure
at lines 21-22 (`cleanTable`). Only when ingestion completes is the page of
`runSession` rendered. -/
def runApp (parse : String → Except String RawTable) (adf : AdfFn)
    (acf : AcfFn) (file : Option String) (col : String) : Outcome :=
  match file with
  | none => .page [.info "Please upload a CSV file with YEAR and time series data."]
  | some content =>
    match parse content with
    | .error e => .crashed e
    | .ok tbl =>
      match cleanTable tbl with
      | .error e => .crashed e
      | .ok _ => .page (runSession adf acf tbl col)

/-! Concrete inputs used by witnesses and counterexamples. -/

/-- A small sample upload: one bad year row, one non-numeric value, one
missing value. -/
def sampleTbl : RawTable :=
  { cols := ["YR", "TEMP", "RAIN"]
    rows := [[.num 1901, .num 3, .na],
             [.str "x", .num 4, .num 0],
             [.num 1903, .str "bad", .num 1],
             [.num 1904, .na, .num 2],
             [.num 1905, .num 7, .num 3]] }

/-- An upload whose single first-column value is the non-integral number
one-half: `pd.to_numeric` coerces it, but the `.astype("Int64")` safe cast
of line 22 raises. (`Rat.mk' 1 2` is the rational 1/2 in lowest terms.) -/
def fracTbl : RawTable :=
  { cols := ["YR", "V"]
    rows := [[.num (Rat.mk' 1 2), .num 7]] }

/-- An upload with a duplicated year: coercion succeeds on both rows, and the
script never deduplicates or sorts the index. -/
def dupTbl : RawTable :=
  { cols := ["YR", "V"]
    rows := [[.num 2000, .num 1], [.num 2000, .num 2]] }

/-- An upload with only five (fully numeric) rows. -/
def shortTbl : RawTable :=
  { cols := ["YEAR", "TEMP"]
    rows := [[.num 2001, .num 5], [.num 2002, .num 6], [.num 2003, .num 7],
             [.num 2004, .num 8], [.num 2005, .num 9]] }

/-- A constant 20-observation series (long enough for decomposition). -/
def zeroSeries : List ℚ := List.replicate 20 0

/-- A stub ADF call that fails. -/
def adfFail : AdfFn := fun _ => .error "adf boom"

/-- A stub ACF/PACF call that fails. -/
def acfFail : AcfFn := fun _ => .error "acf boom"

/-- A stub ADF call that succeeds with statistic 1 and p-value 1. -/
def adfOk : AdfFn := fun _ => .ok (1, 1)

/-- A stub ACF/PACF call that succeeds. -/
def acfOk : AcfFn := fun _ => .ok ()

/-- A stub CSV parse that always fails. -/
def parseFail : String → Except String RawTable :=
  fun _ => .error "ParserError: Error tokenizing data"

/-! Helper lemmas (not tied to any single claim). -/

/-- Length of a `filterMap`: the original length minus the number of elements
the function sends to `none`. -/
theorem length_filterMap_eq {α β : Type} (f : α → Option β) (l : List α) :
    (l.filterMap f).length = l.length - l.countP (fun a => (f a).isNone) := by
  induction l with
  | nil => rfl
  | cons a l ih =>
    have hle := List.countP_le_length (p := fun a => (f a).isNone) (l := l)
    cases h : f a with
    | none => simp [List.filterMap_cons, h, List.countP_cons, ih]
    | some b =>
      simp [List.filterMap_cons, h, List.countP_cons, ih]
      omega

/-- Indexing with default into a map over `List.range`. -/
theorem getD_map_range {α : Type} (f : Nat → α) (n i : Nat) (d : α) :
    ((List.range n).map f).getD i d = if i < n then f i else d := by
  by_cases h : i < n
  · rw [if_pos h]
    rw [List.getD_eq_getElem _ _ (by simpa using h)]
    simp
  · rw [if_neg h]
    apply List.getD_eq_default
    simpa using h

/-- On its success path, the cleaning returns exactly the success-path
table. -/
theorem cleanTable_ok {t : RawTable} {yt : YearTable}
    (h : cleanTable t = .ok yt) : yt = yearTable t := by
  unfold cleanTable at h
  by_cases h1 : "YEAR" ∈ t.cols.drop 1
  · rw [if_pos h1] at h
    exact absurd h (by simp)
  · rw [if_neg h1] at h
    by_cases h2 : t.rows.any badYearCast = true
    · rw [if_pos h2] at h
      exact absurd h (by simp)
    · rw [if_neg h2] at h
      injection h with h
      exact h.symm

/-! Claim theorems. -/

/-- C2: a Selected Series on which the ADF test succeeds is labeled
"likely stationary" iff the returned p-value is strictly below 0.05; a
p-value of exactly 0.05 is labeled "not stationary". -/
theorem stationarity_threshold (pval : ℚ) :
    (classify pval = "Series is likely stationary" ↔ pval < 0.05) ∧
    classify 0.05 = "Series is not stationary" := by
  constructor
  · by_cases h : pval < 0.05 <;> simp [classify, h]
  · simp [classify]

/-- Witness for C2 at concrete p-values 1/25 and 0.05. -/
theorem stationarity_threshold_witness :
    classify (1/25) = "Series is likely stationary" ∧
    classify 0.05 = "Series is not stationary" :=
  ⟨(stationarity_threshold (1/25)).1.mpr (by norm_num),
   (stationarity_threshold 0).2⟩

/-- Counterexample to C3 as stated: a first-column value of one-half coerces
(so it is not counted as a coercion failure), yet ingestion reaches no
Year-Indexed Table at all — line 22's safe cast raises and the script
crashes — so no table's row count can equal raw count minus coercion
failures. -/
theorem year_row_count_cex :
    ¬ ingestionSucceeds fracTbl ∧
    fracTbl.rows.countP (fun r => (toNum (getFirst r)).isNone) = 0 := by
  constructor
  · rintro ⟨yt, h⟩
    have he : cleanTable fracTbl
        = .error "cannot safely cast non-equivalent float64 to int64" := by
      decide
    rw [he] at h
    exact Except.noConfusion h
  · decide

/-- C3 (amended): whenever ingestion completes (no duplicate YEAR column and
every coercible first-column value safe-casts to Int64), the Year-Indexed
Table has exactly the Raw Table's rows minus those whose first-column value
fails numeric coercion, and every surviving row is a whole original row
(year coerced, remaining cells untouched). -/
theorem year_row_count (tbl : RawTable) (yt : YearTable)
    (h : cleanTable tbl = .ok yt) :
    yt.rows.length
      = tbl.rows.length - tbl.rows.countP (fun r => (toNum (getFirst r)).isNone) ∧
    ∀ yc ∈ yt.rows,
      ∃ r ∈ tbl.rows, toNum (getFirst r) = some yc.1 ∧ yc.2 = List.drop 1 r := by
  obtain rfl := cleanTable_ok h
  constructor
  · unfold yearTable
    rw [length_filterMap_eq]
    simp
  · intro yc hyc
    unfold yearTable at hyc
    rcases List.mem_filterMap.mp hyc with ⟨r, hr, heq⟩
    rcases Option.map_eq_some'.mp heq with ⟨y, hy, hpair⟩
    exact ⟨r, hr, by rw [hy, ← hpair], by rw [← hpair]⟩

/-- Witness for C3 on the sample table (ingestion completes: all years are
small integers): five raw rows, one non-coercible year, four surviving rows;
the surviving first row is recovered whole. -/
theorem year_row_count_witness :
    (yearTable sampleTbl).rows.length
      = sampleTbl.rows.length
        - sampleTbl.rows.countP (fun r => (toNum (getFirst r)).isNone) ∧
    ∃ r ∈ sampleTbl.rows,
      toNum (getFirst r) = some (1901 : ℚ) ∧
        [Cell.num 3, Cell.na] = List.drop 1 r :=
  ⟨(year_row_count sampleTbl (yearTable sampleTbl) (by decide)).1,
   (year_row_count sampleTbl (yearTable sampleTbl) (by decide)).2
     (1901, [Cell.num 3, Cell.na]) (by decide)⟩

/-- C4 (amended): whenever ingestion completes, the year index is exactly
the list of coercible first-column values in original row order — nothing is
deduplicated or sorted, so uniqueness/monotonicity hold only when the
surviving input years already have them (and on a coercible year that fails
the Int64 safe cast the script crashes and no index exists). -/
theorem year_index_order_preserving (tbl : RawTable) (yt : YearTable)
    (h : cleanTable tbl = .ok yt) :
    yt.rows.map Prod.fst = tbl.rows.filterMap fun r => toNum (getFirst r) := by
  obtain rfl := cleanTable_ok h
  unfold yearTable
  rw [List.map_filterMap]
  congr 1
  funext r
  cases h : toNum (getFirst r) <;> simp [h]

/-- Witness for C4 on the duplicated-year table, whose ingestion
completes. -/
theorem year_index_order_preserving_witness :
    (yearTable dupTbl).rows.map Prod.fst
      = dupTbl.rows.filterMap fun r => toNum (getFirst r) :=
  year_index_order_preserving dupTbl (yearTable dupTbl) (by decide)

/-- Counterexample to C4 as stated: an upload with a duplicated year whose
year index is not unique (hence not unique-and-nondecreasing). -/
theorem year_index_invariant_cex :
    ¬ yearIndexInvariant (yearIndex dupTbl) := by
  intro h
  exact absurd h.1 (by decide)

/-- C5: every value of the Selected Series is numeric and comes from a row
whose cell in the selected column held exactly that number; no missing or
non-numeric cell survives. -/
theorem selected_series_numeric (t : YearTable) (col : String) (yv : ℚ × ℚ)
    (h : yv ∈ selectedSeries t col) :
    (yv.1, Cell.num yv.2) ∈ columnCells t col := by
  unfold selectedSeries at h
  rcases List.mem_filterMap.mp h with ⟨yc, hmem, heq⟩
  rcases Option.map_eq_some'.mp heq with ⟨v, hv, hpair⟩
  cases hc : yc.2 with
  | na => rw [hc] at hv; exact absurd hv (by simp [toNum])
  | str s => rw [hc] at hv; exact absurd hv (by simp [toNum])
  | num q =>
    rw [hc] at hv
    simp [toNum] at hv
    subst hv
    have : yc = (yv.1, Cell.num yv.2) := by
      rw [← hpair] at *
      cases yc with
      | mk a b => simp at hc ⊢; exact hc
    rw [← this]
    exact hmem

/-- Witness for C5: the pair (1901, 3) in the sample table's TEMP series
comes from the numeric cell 3. -/
theorem selected_series_numeric_witness :
    ((1901 : ℚ), Cell.num 3) ∈ columnCells (yearTable sampleTbl) "TEMP" :=
  selected_series_numeric (yearTable sampleTbl) "TEMP" (1901, 3) (by decide)

/-- C9: the pipeline from uploaded table and selected column to the rendered
page is deterministic — equal inputs give an identical page (all library
calls are modelled as the pure functions they are). -/
theorem pipeline_deterministic (adf : AdfFn) (acf : AcfFn)
    (t t' : RawTable) (c c' : String) (ht : t = t') (hc : c = c') :
    runSession adf acf t c = runSession adf acf t' c' := by
  subst ht; subst hc; rfl

/-- Witness for C9: re-selecting TEMP on the sample table renders the same
page. -/
theorem pipeline_deterministic_witness :
    runSession adfOk acfOk sampleTbl "TEMP"
      = runSession adfOk acfOk sampleTbl "TEMP" :=
  pipeline_deterministic adfOk acfOk sampleTbl sampleTbl "TEMP" "TEMP" rfl rfl

/-- An outcome in which the failure was surfaced to the user as an error
message on a rendered page (what each analyzer's try/except produces). -/
def surfacedAsErrorMessage (o : Outcome) : Prop :=
  ∃ ps, o = Outcome.page ps ∧ ∃ s, Panel.errorMsg s ∈ ps

/-- Counterexample to C1 as stated: on content that does not parse, the
script's outcome is the uncaught exception escaping `pd.read_csv` (line 15
has no try/except), not a rendered page carrying an error message. -/
theorem parse_error_not_reported_cex :
    runApp parseFail adfOk acfOk (some "garbage bytes") "T"
        = Outcome.crashed "ParserError: Error tokenizing data" ∧
    ¬ surfacedAsErrorMessage (runApp parseFail adfOk acfOk (some "garbage bytes") "T") := by
  refine ⟨rfl, ?_⟩
  rintro ⟨ps, hp, -⟩
  simp [runApp, parseFail] at hp

/-- C1 (amended): on content that does not parse, the ParseError propagates
uncaught out of the script — it is not retried and not converted to an
in-script error message; any display of the traceback is done by the
enclosing framework, not the program. -/
theorem parse_error_propagates (parse : String → Except String RawTable)
    (adf : AdfFn) (acf : AcfFn) (content col e : String)
    (h : parse content = .error e) :
    runApp parse adf acf (some content) col = Outcome.crashed e := by
  simp [runApp, h]

/-- Witness for C1 at a concrete failing parse. -/
theorem parse_error_propagates_witness :
    runApp parseFail adfOk acfOk (some "not,a csv") "T"
      = Outcome.crashed "ParserError: Error tokenizing data" :=
  parse_error_propagates parseFail adfOk acfOk "not,a csv" "T"
    "ParserError: Error tokenizing data" rfl

/-- C6: each analyzer's failure is caught inside its own try/except and shown
as that analyzer's error panel, and the rest of the page — the chart and the
two sibling analyzers' panels — is the same whatever that analyzer returns
(so one failure neither blocks the siblings nor aborts the session). -/
theorem analyzer_isolation (adf : AdfFn) (acf : AcfFn) (tbl : RawTable)
    (col : String) :
    (∀ e, adf (seriesVals tbl col) = .error e →
      Panel.errorMsg ("ADF test failed: " ++ e) ∈ runSession adf acf tbl col) ∧
    (∀ e, acf (seriesVals tbl col) = .error e →
      Panel.errorMsg ("ACF/PACF plotting failed: " ++ e)
        ∈ runSession adf acf tbl col) ∧
    (∀ e, seasonalDecompose 10 (seriesVals tbl col) = .error e →
      Panel.errorMsg ("Decomposition failed: " ++ e)
        ∈ runSession adf acf tbl col) ∧
    (∃ L R, (∀ g : AdfFn,
        runSession g acf tbl col = L ++ adfPanel (g (seriesVals tbl col)) ++ R) ∧
      Panel.chart (col ++ " (1901–2021)") "Year" "Value"
        (selectedSeries (yearTable tbl) col) ∈ L) ∧
    (∃ L R, (∀ g : AcfFn,
        runSession adf g tbl col = L ++ acfPanel (g (seriesVals tbl col)) ++ R) ∧
      Panel.chart (col ++ " (1901–2021)") "Year" "Value"
        (selectedSeries (yearTable tbl) col) ∈ L) := by
  refine ⟨fun e he => ?_, fun e he => ?_, fun e he => ?_, ?_, ?_⟩
  · simp [runSession, adfPanel, he]
  · simp [runSession, acfPanel, he]
  · simp [runSession, decompPanel, he]
  · refine ⟨[Panel.header "Raw Data",
      Panel.rawPreview tbl.cols (tbl.rows.take 5),
      Panel.header "Selected Series",
      Panel.chart (col ++ " (1901–2021)") "Year" "Value"
        (selectedSeries (yearTable tbl) col),
      Panel.header "Stationarity Test (ADF)"],
      [Panel.header "Autocorrelation and Partial Autocorrelation"]
        ++ acfPanel (acf (seriesVals tbl col))
        ++ [Panel.header "Decomposition of Time Series"]
        ++ decompPanel (seasonalDecompose 10 (seriesVals tbl col)),
      fun g => by simp [runSession, List.append_assoc], by simp⟩
  · refine ⟨[Panel.header "Raw Data",
      Panel.rawPreview tbl.cols (tbl.rows.take 5),
      Panel.header "Selected Series",
      Panel.chart (col ++ " (1901–2021)") "Year" "Value"
        (selectedSeries (yearTable tbl) col),
      Panel.header "Stationarity Test (ADF)"]
        ++ adfPanel (adf (seriesVals tbl col))
        ++ [Panel.header "Autocorrelation and Partial Autocorrelation"],
      [Panel.header "Decomposition of Time Series"]
        ++ decompPanel (seasonalDecompose 10 (seriesVals tbl col)),
      fun g => by simp [runSession], by simp⟩

/-- Witness for C6: a failing ADF call on the sample table still yields its
error panel. -/
theorem analyzer_isolation_witness :
    Panel.errorMsg ("ADF test failed: " ++ "adf boom")
      ∈ runSession adfFail acfOk sampleTbl "TEMP" :=
  (analyzer_isolation adfFail acfOk sampleTbl "TEMP").1 "adf boom" rfl

/-- C7: whenever the additive decomposition succeeds, at every index where
observed, trend, seasonal and residual are all defined, observed equals
trend plus seasonal plus residual (exactly, in our `ℚ` model — hence within
floating-point tolerance in the library's float model). -/
theorem decomposition_additive (p : Nat) (x : List ℚ) (d : DecompResult)
    (i : Nat) (t r : ℚ)
    (hok : seasonalDecompose p x = .ok d)
    (ht : d.trend.getD i none = some t)
    (hr : d.resid.getD i none = some r) :
    d.observed.getD i 0 = t + d.seasonal.getD i 0 + r := by
  unfold seasonalDecompose at hok
  by_cases hc : x.length < 2 * p
  · rw [if_pos hc] at hok
    exact absurd hok (by simp)
  · rw [if_neg hc] at hok
    injection hok with hd
    subst hd
    simp only [getD_map_range] at ht hr ⊢
    by_cases hi : i < x.length
    · rw [if_pos hi] at ht hr
      have hres := hr
      unfold residAt at hres
      rw [ht] at hres
      have hrval : x.getD i 0 - t - seasonalAt p x i = r :=
        Option.some.inj hres
      rw [if_pos hi]
      -- observed is the input series itself
      show x.getD i 0 = t + seasonalAt p x i + r
      rw [← hrval]
      ring
    · rw [if_neg hi] at ht
      exact absurd ht (by simp)

/-- The decomposition of the constant 20-observation series, as returned by
`seasonalDecompose`. -/
def sampleDecomp : DecompResult :=
  { observed := zeroSeries
    trend := (List.range zeroSeries.length).map (trendAt 10 zeroSeries)
    seasonal := (List.range zeroSeries.length).map (seasonalAt 10 zeroSeries)
    resid := (List.range zeroSeries.length).map (residAt 10 zeroSeries) }

/-- Witness for C7 at index 5 of the constant series. -/
theorem decomposition_additive_witness :
    sampleDecomp.observed.getD 5 0
      = (trendAt 10 zeroSeries 5).getD 0 + sampleDecomp.seasonal.getD 5 0
        + (residAt 10 zeroSeries 5).getD 0 :=
  decomposition_additive 10 zeroSeries sampleDecomp 5
    ((trendAt 10 zeroSeries 5).getD 0) ((residAt 10 zeroSeries 5).getD 0)
    rfl rfl rfl

/-- C8: on a Selected Series shorter than 20 observations (twice the fixed
period 10) the decomposition call fails, the failure is caught and shown as
the decomposition error panel, and the series line chart still renders. -/
theorem short_series_decomposition (adf : AdfFn) (acf : AcfFn)
    (tbl : RawTable) (col : String)
    (h : (seriesVals tbl col).length < 20) :
    Panel.chart (col ++ " (1901–2021)") "Year" "Value"
      (selectedSeries (yearTable tbl) col) ∈ runSession adf acf tbl col ∧
    Panel.errorMsg ("Decomposition failed: "
        ++ cyclesErr 10 (seriesVals tbl col).length)
      ∈ runSession adf acf tbl col := by
  have hd : seasonalDecompose 10 (seriesVals tbl col)
      = .error (cyclesErr 10 (seriesVals tbl col).length) := by
    unfold seasonalDecompose
    rw [if_pos (by omega)]
  exact ⟨by simp [runSession], by simp [runSession, decompPanel, hd]⟩

/-- Witness for C8: a five-row upload renders the chart and the caught
decomposition error. -/
theorem short_series_decomposition_witness :
    Panel.chart ("TEMP" ++ " (1901–2021)") "Year" "Value"
      (selectedSeries (yearTable shortTbl) "TEMP")
      ∈ runSession adfOk acfOk shortTbl "TEMP" ∧
    Panel.errorMsg ("Decomposition failed: "
        ++ cyclesErr 10 (seriesVals shortTbl "TEMP").length)
      ∈ runSession adfOk acfOk shortTbl "TEMP" :=
  short_series_decomposition adfOk acfOk shortTbl "TEMP" (by decide)

/-- C10: the series chart's title is always the selected column name followed
by the literal text " (1901–2021)", whatever years the data holds. -/
theorem chart_title_fixed (adf : AdfFn) (acf : AcfFn) (tbl : RawTable)
    (col : String) :
    Panel.chart (col ++ " (1901–2021)") "Year" "Value"
      (selectedSeries (yearTable tbl) col) ∈ runSession adf acf tbl col := by
  simp [runSession]

end ADF
